import Mathlib

/-!
Verification of the slide-beautifier asynchronous job engine.

Shallow embedding of the batch / PPTX processing core:
  - persistence functions from `server/src/services/database.ts`
    (row schemas, status updates, counters, pending-item queries),
  - the Gemini gateway from `server/src/services/gemini.ts`,
  - the two drain loops `processBatch` (`server/src/services/batchProcessor.ts`)
    and `processPptxJob` (the PPTX processor module), with their in-memory
    activity registries and the cancel / retry route handlers.

Conventions used throughout:
  - SQLite INTEGER columns are modelled as `Int` (they can in principle go
    negative through the decrement operations), nullable columns as `Option`.
  - JavaScript truthiness of strings and numbers matters in this code base
    (`x || null` maps the empty string and the number 0 to null); this is
    modelled explicitly by `jsStrOrNull`, `jsNatOrNull`, `jsOrDefault`.
  - `DATETIME` timestamps carry no information relevant to the verified
    properties; `completed_at` is modelled as `Option Unit` (set on terminal
    statuses, cleared otherwise, exactly as the SQL `CASE` expression does).
    `created_at` and the `estimated_cost REAL` column are omitted: no
    verified property mentions them.
  - The in-memory `Map` objects (`activeBatches`, `activeJobs`, `pptxResults`)
    are modelled as association lists with JS `Map` get / set / delete
    semantics.
  - The drain loops are given explicit fuel; every full iteration resolves
    one pending row, so any fuel of at least the number of rows reproduces
    the TypeScript loop.
-/

set_option linter.unusedVariables false

namespace SlideBeautifier

/-- JS coercion `s || null` for an optional string: empty strings are falsy. -/
def jsStrOrNull : Option String → Option String
  | some s => if s = "" then none else some s
  | none => none

/-- JS coercion `n || null` for an optional number: 0 is falsy. -/
def jsNatOrNull : Option Nat → Option Nat
  | some n => if n = 0 then none else some n
  | none => none

/-- JS `s || d` for an optional string `s` and default `d`. -/
def jsOrDefault : Option String → String → String
  | some s, d => if s = "" then d else s
  | none, d => d

/-- JS truthiness of a nullable string field. -/
def optTruthy : Option String → Bool
  | some s => !(s == "")
  | none => false

/-! ### Status enums (database.ts) -/
/-- Task-level status: `BatchItemStatus` and `PptxSlideStatus` in database.ts
share the same four values. -/
inductive ItemStatus
  | pending
  | processing
  | completed
  | failed
deriving DecidableEq, Repr

/-- `BatchStatus` in database.ts. -/
inductive BatchStatus
  | pending
  | processing
  | completed
  | failed
deriving DecidableEq, Repr

/-- `PptxJobStatus` in database.ts. -/
inductive PptxJobStatus
  | pending
  | extracting
  | processing
  | assembling
  | completed
  | failed
deriving DecidableEq, Repr

/-! ### Row schemas (database.ts table definitions) -/
/-- A row of the `batches` table. -/
structure Batch where
  id : Nat
  status : BatchStatus
  total_items : Int
  completed_items : Int
  failed_items : Int
  prompt : String
  aspect_ratio : Option String
  completed_at : Option Unit
deriving DecidableEq, Repr

/-- A row of the `batch_items` table. -/
structure BatchItem where
  id : Nat
  batch_id : Nat
  filename : String
  original_image : String
  original_mime_type : String
  generated_image : Option String
  generated_mime_type : Option String
  status : ItemStatus
  error : Option String
  processing_time : Option Nat
deriving DecidableEq, Repr

/-- A row of the `pptx_jobs` table. -/
structure PptxJob where
  id : Nat
  status : PptxJobStatus
  total_slides : Int
  completed_slides : Int
  failed_slides : Int
  prompt : String
  aspect_ratio : Option String
  completed_at : Option Unit
deriving DecidableEq, Repr

/-- A row of the `pptx_slides` table. -/
structure PptxSlide where
  id : Nat
  job_id : Nat
  slide_number : Nat
  status : ItemStatus
  original_image : String
  beautified_image : Option String
  error : Option String
  processing_time : Option Nat
deriving DecidableEq, Repr

/-! ### Generic single-statement UPDATE helper -/
/-- `UPDATE ... WHERE hit`: apply `g` to every row matching `hit`. -/
def updateWhere {α : Type} (hit : α → Bool) (g : α → α) (l : List α) : List α :=
  l.map fun a => if hit a then g a else a

/-! ### `SELECT ... ORDER BY k LIMIT 1` helper -/
/-- First row in ascending `key` order, or none for an empty result set. -/
def minByKey {α : Type} (key : α → Nat) : List α → Option α
  | [] => none
  | a :: t =>
    match minByKey key t with
    | none => some a
    | some b => if key a ≤ key b then some a else some b

/-! ### database.ts: batch accessors -/
/-- The optional `result` argument of `updateBatchItemStatus`. -/
structure BatchItemResult where
  generatedImage : Option String
  generatedMimeType : Option String
  error : Option String
  processingTime : Option Nat
deriving DecidableEq, Repr

/-- Effect of `updateBatchItemStatus` on one matching `batch_items` row:
every result column is overwritten with the supplied value or NULL, with the
JS `|| null` coercions of the bound parameters. -/
def updateBatchItemRow (status : ItemStatus) (res : Option BatchItemResult)
    (it : BatchItem) : BatchItem :=
  { it with
    status := status
    generated_image := jsStrOrNull (res.bind (·.generatedImage))
    generated_mime_type := jsStrOrNull (res.bind (·.generatedMimeType))
    error := jsStrOrNull (res.bind (·.error))
    processing_time := jsNatOrNull (res.bind (·.processingTime)) }

/-- `UPDATE batch_items SET ... WHERE id = ?` (updateBatchItemStatus). -/
def updateBatchItemStatus (itemId : Nat) (status : ItemStatus)
    (res : Option BatchItemResult) (items : List BatchItem) : List BatchItem :=
  updateWhere (fun it => it.id == itemId) (updateBatchItemRow status res) items

/-- Effect of `resetBatchItem` on one matching row. -/
def resetBatchItemRow (it : BatchItem) : BatchItem :=
  { it with
    status := .pending
    generated_image := none
    generated_mime_type := none
    error := none
    processing_time := none }

/-- `UPDATE batch_items SET status = pending, ... NULL ... WHERE id = ?`. -/
def resetBatchItem (itemId : Nat) (items : List BatchItem) : List BatchItem :=
  updateWhere (fun it => it.id == itemId) resetBatchItemRow items

/-- Effect of `incrementBatchCompleted` on the matching `batches` row. -/
def incrementBatchRow (failed : Bool) (b : Batch) : Batch :=
  if failed then
    { b with completed_items := b.completed_items + 1, failed_items := b.failed_items + 1 }
  else
    { b with completed_items := b.completed_items + 1 }

/-- Effect of `decrementBatchFailed` on the matching `batches` row. -/
def decrementBatchRow (b : Batch) : Batch :=
  { b with completed_items := b.completed_items - 1, failed_items := b.failed_items - 1 }

/-- Effect of `updateBatchStatus` on the matching row: the SQL CASE stamps
`completed_at` on terminal statuses and clears it otherwise. -/
def updateBatchStatusRow (status : BatchStatus) (b : Batch) : Batch :=
  { b with
    status := status
    completed_at := if status = .completed ∨ status = .failed then some () else none }

/-- The `batches` and `batch_items` tables. -/
structure BatchStore where
  batches : List Batch
  items : List BatchItem
deriving DecidableEq, Repr

/-- `SELECT * FROM batches WHERE id = ?` (getBatch). -/
def getBatch (id : Nat) (st : BatchStore) : Option Batch :=
  st.batches.find? (fun b => b.id == id)

/-- `SELECT * FROM batch_items WHERE id = ?` (getBatchItem). -/
def getBatchItem (id : Nat) (items : List BatchItem) : Option BatchItem :=
  items.find? (fun it => it.id == id)

/-- getNextPendingBatchItem: `WHERE batch_id = ? AND status = pending
ORDER BY id LIMIT 1`. Note the ordering column is the row id, not the
filename. -/
def getNextPendingBatchItem (batchId : Nat) (items : List BatchItem) : Option BatchItem :=
  minByKey (fun it => it.id)
    (items.filter fun it => it.batch_id == batchId && it.status == ItemStatus.pending)

/-- Store-level `updateBatchStatus`. -/
def updateBatchStatus (id : Nat) (status : BatchStatus) (st : BatchStore) : BatchStore :=
  { st with batches := updateWhere (fun b => b.id == id) (updateBatchStatusRow status) st.batches }

/-- Store-level `incrementBatchCompleted`. -/
def incrementBatchCompleted (batchId : Nat) (failed : Bool) (st : BatchStore) : BatchStore :=
  { st with batches := updateWhere (fun b => b.id == batchId) (incrementBatchRow failed) st.batches }

/-! ### database.ts: pptx accessors -/
/-- The optional `result` argument of `updatePptxSlideStatus`. -/
structure PptxSlideResult where
  beautifiedImage : Option String
  error : Option String
  processingTime : Option Nat
deriving DecidableEq, Repr

/-- Effect of `updatePptxSlideStatus` on one matching `pptx_slides` row. -/
def updatePptxSlideRow (status : ItemStatus) (res : Option PptxSlideResult)
    (sl : PptxSlide) : PptxSlide :=
  { sl with
    status := status
    beautified_image := jsStrOrNull (res.bind (·.beautifiedImage))
    error := jsStrOrNull (res.bind (·.error))
    processing_time := jsNatOrNull (res.bind (·.processingTime)) }

/-- `UPDATE pptx_slides SET ... WHERE id = ?` (updatePptxSlideStatus). -/
def updatePptxSlideStatus (slideId : Nat) (status : ItemStatus)
    (res : Option PptxSlideResult) (slides : List PptxSlide) : List PptxSlide :=
  updateWhere (fun sl => sl.id == slideId) (updatePptxSlideRow status res) slides

/-- Effect of `resetPptxSlide` on one matching row. -/
def resetPptxSlideRow (sl : PptxSlide) : PptxSlide :=
  { sl with
    status := .pending
    beautified_image := none
    error := none
    processing_time := none }

/-- `UPDATE pptx_slides SET status = pending, ... NULL ... WHERE id = ?`. -/
def resetPptxSlide (slideId : Nat) (slides : List PptxSlide) : List PptxSlide :=
  updateWhere (fun sl => sl.id == slideId) resetPptxSlideRow slides

/-- Effect of `incrementPptxCompleted` on the matching `pptx_jobs` row. -/
def incrementPptxRow (failed : Bool) (j : PptxJob) : PptxJob :=
  if failed then
    { j with completed_slides := j.completed_slides + 1, failed_slides := j.failed_slides + 1 }
  else
    { j with completed_slides := j.completed_slides + 1 }

/-- Effect of `decrementPptxFailed` on the matching row. -/
def decrementPptxRow (j : PptxJob) : PptxJob :=
  { j with completed_slides := j.completed_slides - 1, failed_slides := j.failed_slides - 1 }

/-- Effect of `updatePptxJobStatus` on the matching row. -/
def updatePptxJobStatusRow (status : PptxJobStatus) (j : PptxJob) : PptxJob :=
  { j with
    status := status
    completed_at := if status = .completed ∨ status = .failed then some () else none }

/-- The `pptx_jobs` and `pptx_slides` tables. -/
structure PptxStore where
  jobs : List PptxJob
  slides : List PptxSlide
deriving DecidableEq, Repr

/-- `SELECT * FROM pptx_jobs WHERE id = ?` (getPptxJob). -/
def getPptxJob (id : Nat) (st : PptxStore) : Option PptxJob :=
  st.jobs.find? (fun j => j.id == id)

/-- Rows of one job ordered by slide number, as returned by getPptxSlides
(`WHERE job_id = ? ORDER BY slide_number`). -/
def getPptxSlides (jobId : Nat) (slides : List PptxSlide) : List PptxSlide :=
  (slides.filter fun sl => sl.job_id == jobId).insertionSort
    (fun a b => a.slide_number ≤ b.slide_number)

/-- getNextPendingPptxSlide: `WHERE job_id = ? AND status = pending
ORDER BY slide_number LIMIT 1`. -/
def getNextPendingPptxSlide (jobId : Nat) (slides : List PptxSlide) : Option PptxSlide :=
  minByKey (fun sl => sl.slide_number)
    (slides.filter fun sl => sl.job_id == jobId && sl.status == ItemStatus.pending)

/-- Store-level `updatePptxJobStatus`. -/
def updatePptxJobStatus (id : Nat) (status : PptxJobStatus) (st : PptxStore) : PptxStore :=
  { st with jobs := updateWhere (fun j => j.id == id) (updatePptxJobStatusRow status) st.jobs }

/-- Store-level `incrementPptxCompleted`. -/
def incrementPptxCompleted (jobId : Nat) (failed : Bool) (st : PptxStore) : PptxStore :=
  { st with jobs := updateWhere (fun j => j.id == jobId) (incrementPptxRow failed) st.jobs }

/-! ### gemini.ts: the Generation Gateway -/
/-- JS `String.prototype.includes` on character lists. -/
def containsSub (hay needle : List Char) : Bool :=
  match hay with
  | [] => needle.isEmpty
  | _ :: t => needle.isPrefixOf hay || containsSub t needle

/-- JS `String.prototype.includes`. -/
def strIncludes (hay needle : String) : Bool :=
  containsSub hay.data needle.data

/-- JS `String.prototype.toLowerCase` (ASCII, which is all this code compares). -/
def strToLower (s : String) : String :=
  ⟨s.data.map Char.toLower⟩

/-- The `GenerateImageResult` interface of gemini.ts. -/
structure GenResult where
  success : Bool
  image : Option String
  mimeType : Option String
  error : Option String
  errorCode : Option String
deriving DecidableEq, Repr

/-- The `inlineData` field of a response part. -/
structure InlineData where
  data : Option String
  mimeType : Option String
deriving DecidableEq, Repr

/-- One part of a Gemini response candidate content. -/
structure RespPart where
  inlineData : Option InlineData
  text : Option String
deriving DecidableEq, Repr

/-- The `content` field of a candidate. -/
structure RespContent where
  parts : Option (List RespPart)
deriving DecidableEq, Repr

/-- One response candidate. -/
structure Candidate where
  content : Option RespContent
  finishReason : Option String
deriving DecidableEq, Repr

/-- The provider response object. -/
structure ApiResponse where
  candidates : Option (List Candidate)
deriving DecidableEq, Repr

/-- Outcome of `client.models.generateContent`: the promise either resolves
with a response or rejects with an error whose message is given. -/
inductive ApiCall
  | success (resp : ApiResponse)
  | failure (errMsg : String)
deriving DecidableEq, Repr

def apiErrorResult (msg : String) : GenResult :=
  { success := false, image := none, mimeType := none
    error := some msg, errorCode := some "API_ERROR" }

/-- gemini.ts getClient: throws when GEMINI_API_KEY is absent. -/
def getClient (apiKey : Option String) : Except String Unit :=
  match apiKey with
  | none => Except.error "GEMINI_API_KEY environment variable is not set"
  | some _ => Except.ok ()

/-- A part is used when `part.inlineData?.data && part.inlineData?.mimeType`
is truthy. -/
def partUsable (p : RespPart) : Bool :=
  optTruthy (p.inlineData.bind (·.data)) && optTruthy (p.inlineData.bind (·.mimeType))

/-- Response handling of generateImage after a resolved API call
(candidate checks, image part extraction, safety finish reason). -/
def extractResult (resp : ApiResponse) : GenResult :=
  match resp.candidates with
  | none => apiErrorResult "No response generated"
  | some [] => apiErrorResult "No response generated"
  | some (c :: _) =>
    match c.content with
    | none => apiErrorResult "No content in response"
    | some content =>
      match content.parts with
      | none => apiErrorResult "No content in response"
      | some parts =>
        match parts.find? partUsable with
        | some p =>
          { success := true
            image := p.inlineData.bind (·.data)
            mimeType := p.inlineData.bind (·.mimeType)
            error := none, errorCode := none }
        | none =>
          if c.finishReason = some "SAFETY" then
            { success := false, image := none, mimeType := none
              error := some "Content was blocked by safety filters"
              errorCode := some "SAFETY_FILTER" }
          else
            apiErrorResult "No image found in response"

/-- The catch block of generateImage: classify the thrown error message by
substring matching. -/
def classifyCatch (m : String) : GenResult :=
  if strIncludes m "403" || strIncludes m "PERMISSION_DENIED"
      || strIncludes m "API_KEY_SERVICE_BLOCKED" then
    { success := false, image := none, mimeType := none
      error := some "API key does not have permission. Please enable the Generative Language API in Google Cloud Console."
      errorCode := some "API_ERROR" }
  else if strIncludes m "429" || strIncludes (strToLower m) "rate limit" then
    { success := false, image := none, mimeType := none
      error := some "Rate limit exceeded. Please try again later."
      errorCode := some "RATE_LIMIT" }
  else if strIncludes (strToLower m) "safety" then
    { success := false, image := none, mimeType := none
      error := some "Content was blocked by safety filters"
      errorCode := some "SAFETY_FILTER" }
  else
    apiErrorResult ("API error: " ++ m)

/-- The try block of generateImage: obtain the client (this is where a
missing GEMINI_API_KEY throws), await the API call, extract the result. -/
def generateImageTry (apiKey : Option String) (call : ApiCall) : Except String GenResult := do
  let _ ← getClient apiKey
  match call with
  | .failure m => Except.error m
  | .success resp => Except.ok (extractResult resp)

/-- gemini.ts generateImage: the whole body runs inside try/catch, so every
throw, including the missing-credential throw from getClient, is converted
into a classified failure result. -/
def generateImage (apiKey : Option String) (call : ApiCall) : GenResult :=
  match generateImageTry apiKey call with
  | .ok r => r
  | .error m => classifyCatch m

/-! ### In-memory JS Map registries -/
/-- A JS `Map` from numeric job ids to booleans (`activeBatches`, `activeJobs`). -/
abbrev Registry := List (Nat × Bool)

/-- `map.get(k)`. -/
def mapGet (m : Registry) (k : Nat) : Option Bool :=
  (m.find? (fun p => p.1 == k)).map (·.2)

/-- `map.set(k, v)`. -/
def mapSet (m : Registry) (k : Nat) (v : Bool) : Registry :=
  (k, v) :: m.filter (fun p => p.1 != k)

/-- `map.delete(k)`. -/
def mapDelete (m : Registry) (k : Nat) : Registry :=
  m.filter (fun p => p.1 != k)

/-- `isProcessingBatch` / `isProcessingPptxJob`: `map.get(id) === true`. -/
def isProcessingFlag (reg : Registry) (id : Nat) : Bool :=
  mapGet reg id == some true

/-! ### The drain loops (batchProcessor.ts and the PPTX processor) -/
/-- Outcome of one `await generateImage(...)` call at the call site in the
drain loop: the promise resolves with a result, or rejects (the catch arm).
In the composed system the thrown arm is dead code, because generateImage
wraps its whole body in try/catch and always resolves; it is modelled so the
catch arm of the loop can be verified. The carried string is the computed
`errorMessage` (`error instanceof Error ? error.message : unknown-error`). -/
inductive GwOutcome
  | result (r : GenResult)
  | thrown (msg : String)
deriving DecidableEq, Repr

/-- Environment events of one loop iteration: whether the cancel route ran
before the loop-boundary check, whether the first store write of the
iteration throws (a StoreFailure), the gateway outcome and the measured
elapsed milliseconds. -/
structure StepEv where
  cancelBefore : Bool
  storeFail : Option String
  gw : GwOutcome
  elapsed : Nat
deriving DecidableEq, Repr

def defaultStepEv : StepEv :=
  { cancelBefore := false, storeFail := none
    gw := GwOutcome.result { success := false, image := none, mimeType := none, error := none, errorCode := none }
    elapsed := 1 }

def takeStep (trace : List StepEv) : StepEv × List StepEv :=
  match trace with
  | [] => (defaultStepEv, [])
  | e :: rest => (e, rest)

/-- The batch success condition
`result.success && result.image && result.mimeType`. -/
def batchSuccessCond (r : GenResult) : Bool :=
  r.success && optTruthy r.image && optTruthy r.mimeType

/-- Lines 49-90 of processBatch: mark the item processing, run the gateway,
record the outcome, bump the counters. Failures and thrown exceptions are
all converted into a failed row plus a failed increment; this function is
total, nothing escapes it. -/
def runBatchTask (batchId itemId : Nat) (gw : GwOutcome) (elapsed : Nat)
    (st : BatchStore) : BatchStore :=
  let st := { st with items := updateBatchItemStatus itemId .processing none st.items }
  match gw with
  | .result r =>
    if batchSuccessCond r then
      let res : BatchItemResult :=
        { generatedImage := r.image, generatedMimeType := r.mimeType
          error := none, processingTime := some elapsed }
      let st := { st with items := updateBatchItemStatus itemId .completed (some res) st.items }
      incrementBatchCompleted batchId false st
    else
      let res : BatchItemResult :=
        { generatedImage := none, generatedMimeType := none
          error := some (jsOrDefault r.error "Unknown error")
          processingTime := some elapsed }
      let st := { st with items := updateBatchItemStatus itemId .failed (some res) st.items }
      incrementBatchCompleted batchId true st
  | .thrown m =>
      let res : BatchItemResult :=
        { generatedImage := none, generatedMimeType := none
          error := some m, processingTime := some elapsed }
      let st := { st with items := updateBatchItemStatus itemId .failed (some res) st.items }
      incrementBatchCompleted batchId true st

/-- The batch system state: the two tables plus the process-wide
`activeBatches` map. -/
structure BSys where
  store : BatchStore
  reg : Registry
deriving DecidableEq, Repr

/-- `cancelBatch`: sets the activity flag to false. -/
def cancelBatch (batchId : Nat) (reg : Registry) : Registry :=
  mapSet reg batchId false

/-- The cancel route of batchRouter: after the 404 guard it calls
`cancelBatch(id)` and then writes the batch status to failed. -/
def cancelBatchRoute (batchId : Nat) (s : BSys) : BSys :=
  match getBatch batchId s.store with
  | none => s
  | some _ =>
    { s with reg := cancelBatch batchId s.reg
             store := updateBatchStatus batchId .failed s.store }

/-- The while loop of processBatch. Each iteration: fetch the next pending
item; if none, exit; let the environment possibly run the cancel route; break
if the activity flag is no longer true; possibly throw a StoreFailure;
otherwise run the task and continue. The returned option is an escaped
exception. -/
def batchLoop (batchId : Nat) : Nat → List StepEv → BSys → BSys × Option String
  | 0, _, s => (s, none)
  | fuel + 1, trace, s =>
    match getNextPendingBatchItem batchId s.store.items with
    | none => (s, none)
    | some item =>
      let (ev, rest) := takeStep trace
      let s := if ev.cancelBefore then cancelBatchRoute batchId s else s
      if mapGet s.reg batchId = some true then
        match ev.storeFail with
        | some m => (s, some m)
        | none =>
          let s := { s with store := runBatchTask batchId item.id ev.gw ev.elapsed s.store }
          batchLoop batchId fuel rest s
      else
        (s, none)

/-- The try block of processBatch: load the batch (absent: log and return),
set the status to processing, drain, and then run the final status check.
The final check runs whether the loop drained or broke on cancellation; it
marks the batch failed only when every item failed, otherwise completed. -/
def processBatchBody (fuel : Nat) (trace : List StepEv) (batchId : Nat) (s : BSys) :
    BSys × Option String :=
  match getBatch batchId s.store with
  | none => (s, none)
  | some _ =>
    let s := { s with store := updateBatchStatus batchId .processing s.store }
    let (s, exc) := batchLoop batchId fuel trace s
    match exc with
    | some m => (s, some m)
    | none =>
      match getBatch batchId s.store with
      | none => (s, none)
      | some fb =>
        if fb.failed_items = fb.total_items then
          ({ s with store := updateBatchStatus batchId .failed s.store }, none)
        else
          ({ s with store := updateBatchStatus batchId .completed s.store }, none)

/-- processBatch: the duplicate-start guard, the activity registration, the
try block, and the finally block that always deletes the registry entry,
also when an exception escapes the body. -/
def processBatch (fuel : Nat) (trace : List StepEv) (batchId : Nat) (s : BSys) :
    BSys × Option String :=
  if mapGet s.reg batchId = some true then
    (s, none)
  else
    let s := { s with reg := mapSet s.reg batchId true }
    let (s1, exc) := processBatchBody fuel trace batchId s
    ({ s1 with reg := mapDelete s1.reg batchId }, exc)

/-! ### The PPTX processor -/
/-- The `SlideImage` interface of pptxService.ts. -/
structure SlideImage where
  slideNumber : Nat
  imageData : String
  mimeType : String
deriving DecidableEq, Repr

/-- The sort order of the JS comparator `(a, b) => a.slideNumber - b.slideNumber`. -/
def slideLE (a b : SlideImage) : Prop := a.slideNumber ≤ b.slideNumber

instance : DecidableRel slideLE := fun a b => Nat.decLe a.slideNumber b.slideNumber

instance : IsTotal SlideImage slideLE := ⟨fun a b => Nat.le_total a.slideNumber b.slideNumber⟩

instance : IsTrans SlideImage slideLE := ⟨fun _ _ _ => Nat.le_trans⟩

/-- Lines 116-137 of processPptxJob: the list handed to
createPptxFromImages. Beautified output for completed slides with a truthy
beautified image, original image as fallback for failed slides, concatenated
and sorted ascending by slide number (stable, as the JS sort is). Pending
and processing slides contribute nothing. -/
def assemblySlides (slides : List PptxSlide) : List SlideImage :=
  let beautifiedSlides : List SlideImage :=
    (slides.filter fun sl => sl.status == ItemStatus.completed && optTruthy sl.beautified_image).map
      fun sl => { slideNumber := sl.slide_number, imageData := sl.beautified_image.getD ""
                  mimeType := "image/png" }
  let failedSlides : List SlideImage :=
    (slides.filter fun sl => sl.status == ItemStatus.failed).map
      fun sl => { slideNumber := sl.slide_number, imageData := sl.original_image
                  mimeType := "image/png" }
  (beautifiedSlides ++ failedSlides).insertionSort slideLE

/-- The pptx system state: the two tables, the process-wide `activeJobs`
map, and the in-memory `pptxResults` map. The opaque PPTX buffer produced by
the external createPptxFromImages collaborator is modelled by the slide list
it is built from. -/
structure PSys where
  store : PptxStore
  reg : Registry
  results : List (Nat × List SlideImage)
deriving DecidableEq, Repr

/-- `pptxResults.set(jobId, buffer)`. -/
def resSet (m : List (Nat × List SlideImage)) (k : Nat) (v : List SlideImage) :
    List (Nat × List SlideImage) :=
  (k, v) :: m.filter (fun p => p.1 != k)

/-- `pptxResults.get(jobId)` (getPptxResult). -/
def resGet (m : List (Nat × List SlideImage)) (k : Nat) : Option (List SlideImage) :=
  (m.find? (fun p => p.1 == k)).map (·.2)

/-- The pptx success condition `result.success && result.image` (no mime
check, unlike the batch loop). -/
def pptxSuccessCond (r : GenResult) : Bool :=
  r.success && optTruthy r.image

/-- Lines 58-98 of processPptxJob: mark the slide processing, run the
gateway, record the outcome, bump the counters. Total: no outcome escapes. -/
def runPptxTask (jobId slideId : Nat) (gw : GwOutcome) (elapsed : Nat)
    (st : PptxStore) : PptxStore :=
  let st := { st with slides := updatePptxSlideStatus slideId .processing none st.slides }
  match gw with
  | .result r =>
    if pptxSuccessCond r then
      let res : PptxSlideResult :=
        { beautifiedImage := r.image, error := none, processingTime := some elapsed }
      let st := { st with slides := updatePptxSlideStatus slideId .completed (some res) st.slides }
      incrementPptxCompleted jobId false st
    else
      let res : PptxSlideResult :=
        { beautifiedImage := none, error := some (jsOrDefault r.error "Unknown error")
          processingTime := some elapsed }
      let st := { st with slides := updatePptxSlideStatus slideId .failed (some res) st.slides }
      incrementPptxCompleted jobId true st
  | .thrown m =>
      let res : PptxSlideResult :=
        { beautifiedImage := none, error := some m, processingTime := some elapsed }
      let st := { st with slides := updatePptxSlideStatus slideId .failed (some res) st.slides }
      incrementPptxCompleted jobId true st

/-- `cancelPptxJob`: sets the activity flag to false. -/
def cancelPptxJob (jobId : Nat) (reg : Registry) : Registry :=
  mapSet reg jobId false

/-- The cancel route of pptxRouter: after the 404 guard it calls
`cancelPptxJob(jobId)` and writes the job status to failed. -/
def cancelPptxRoute (jobId : Nat) (s : PSys) : PSys :=
  match getPptxJob jobId s.store with
  | none => s
  | some _ =>
    { s with reg := cancelPptxJob jobId s.reg
             store := updatePptxJobStatus jobId .failed s.store }

/-- The while loop of processPptxJob (same shape as the batch loop). -/
def pptxLoop (jobId : Nat) : Nat → List StepEv → PSys → PSys × Option String
  | 0, _, s => (s, none)
  | fuel + 1, trace, s =>
    match getNextPendingPptxSlide jobId s.store.slides with
    | none => (s, none)
    | some slide =>
      let (ev, rest) := takeStep trace
      let s := if ev.cancelBefore then cancelPptxRoute jobId s else s
      if mapGet s.reg jobId = some true then
        match ev.storeFail with
        | some m => (s, some m)
        | none =>
          let s := { s with store := runPptxTask jobId slide.id ev.gw ev.elapsed s.store }
          pptxLoop jobId fuel rest s
      else
        (s, none)

/-- Lines 107-154 of processPptxJob: the post-loop assembly phase. It runs
whether the loop drained or broke on cancellation. All slides failed: job
failed. Otherwise: status assembling, assemble (`asmFail` models
createPptxFromImages throwing, which is caught and fails the job), store the
buffer, status completed. -/
def finalizePptx (jobId : Nat) (asmFail : Bool) (s : PSys) : PSys :=
  match getPptxJob jobId s.store with
  | none => s
  | some fj =>
    if fj.failed_slides = fj.total_slides then
      { s with store := updatePptxJobStatus jobId .failed s.store }
    else
      let s := { s with store := updatePptxJobStatus jobId .assembling s.store }
      if asmFail then
        { s with store := updatePptxJobStatus jobId .failed s.store }
      else
        let allSlides := assemblySlides (getPptxSlides jobId s.store.slides)
        let s := { s with results := resSet s.results jobId allSlides }
        { s with store := updatePptxJobStatus jobId .completed s.store }

/-- The try block of processPptxJob. -/
def processPptxBody (fuel : Nat) (trace : List StepEv) (asmFail : Bool) (jobId : Nat)
    (s : PSys) : PSys × Option String :=
  match getPptxJob jobId s.store with
  | none => (s, none)
  | some _ =>
    let s := { s with store := updatePptxJobStatus jobId .processing s.store }
    let (s, exc) := pptxLoop jobId fuel trace s
    match exc with
    | some m => (s, some m)
    | none => (finalizePptx jobId asmFail s, none)

/-- processPptxJob: duplicate-start guard, registration, try block, and the
finally block that always deletes the registry entry. -/
def processPptxJob (fuel : Nat) (trace : List StepEv) (asmFail : Bool) (jobId : Nat)
    (s : PSys) : PSys × Option String :=
  if mapGet s.reg jobId = some true then
    (s, none)
  else
    let s := { s with reg := mapSet s.reg jobId true }
    let (s1, exc) := processPptxBody fuel trace asmFail jobId s
    ({ s1 with reg := mapDelete s1.reg jobId }, exc)

/-! ### Reachable states of one batch job

For the counter and payload invariants the relevant mutations, read off the
source, are: atomic creation (createBatch), the two status writes the drain
loop performs on the item it fetched as pending (processing, then the
terminal outcome together with its increment), the guarded retry route
(reset of a failed item plus decrement plus possible job status flip), and
the job status writes of the loop, finalization and cancel route. -/
/-- One entry of the `items` array accepted by the create-batch route. -/
structure BatchItemSpec where
  filename : String
  image : String
  mimeType : String
deriving DecidableEq, Repr

/-- One batch job: its `batches` row and its `batch_items` rows. -/
structure JState where
  batch : Batch
  items : List BatchItem
deriving DecidableEq, Repr

/-- createBatch: one batch row (status pending, counters 0) plus one pending
item row per spec entry, ids assigned by autoincrement. -/
def createBatchState (batchId : Nat) (prompt : String) (aspect : Option String)
    (specs : List BatchItemSpec) : JState :=
  { batch :=
      { id := batchId, status := .pending
        total_items := (specs.length : Int), completed_items := 0, failed_items := 0
        prompt := prompt, aspect_ratio := aspect, completed_at := none }
    items := specs.enum.map fun p =>
      { id := p.1, batch_id := batchId, filename := p.2.filename
        original_image := p.2.image, original_mime_type := p.2.mimeType
        generated_image := none, generated_mime_type := none
        status := .pending, error := none, processing_time := none } }

/-- The terminal half of one loop iteration: record the gateway result on
the item row and bump the counters (lines 54-90 of processBatch, at the
granularity of one job row). -/
def resolveBatchItem (itemId : Nat) (r : GenResult) (elapsed : Nat) (s : JState) : JState :=
  if batchSuccessCond r then
    { batch := incrementBatchRow false s.batch
      items := updateBatchItemStatus itemId .completed
        (some { generatedImage := r.image, generatedMimeType := r.mimeType
                error := none, processingTime := some elapsed }) s.items }
  else
    { batch := incrementBatchRow true s.batch
      items := updateBatchItemStatus itemId .failed
        (some { generatedImage := none, generatedMimeType := none
                error := some (jsOrDefault r.error "Unknown error")
                processingTime := some elapsed }) s.items }

/-- The retry route of batchRouter (after its guards): reset the item,
decrement both counters, flip a terminal job status back to processing. -/
def retryBatchItemRoute (itemId : Nat) (s : JState) : JState :=
  let items := resetBatchItem itemId s.items
  let b := decrementBatchRow s.batch
  let b := if s.batch.status = .completed ∨ s.batch.status = .failed then
    updateBatchStatusRow .processing b else b
  { batch := b, items := items }

/-- States of one batch job reachable through the operations the code
actually performs. The side conditions record what the source guarantees at
each call site: the loop marks processing only an item fetched while
pending, resolves only the item it just marked processing, and the retry
route resets only an item it checked to be failed. -/
inductive BatchReach : JState → Prop
  | create (batchId : Nat) (prompt : String) (aspect : Option String)
      (specs : List BatchItemSpec) (hne : specs ≠ []) :
      BatchReach (createBatchState batchId prompt aspect specs)
  | markProcessing {s : JState} (itemId : Nat) (it : BatchItem)
      (hmem : it ∈ s.items) (hid : it.id = itemId) (hst : it.status = .pending)
      (h : BatchReach s) :
      BatchReach { s with items := updateBatchItemStatus itemId .processing none s.items }
  | resolve {s : JState} (itemId : Nat) (r : GenResult) (elapsed : Nat) (it : BatchItem)
      (hmem : it ∈ s.items) (hid : it.id = itemId) (hst : it.status = .processing)
      (h : BatchReach s) :
      BatchReach (resolveBatchItem itemId r elapsed s)
  | retry {s : JState} (itemId : Nat) (it : BatchItem)
      (hmem : it ∈ s.items) (hid : it.id = itemId) (hst : it.status = .failed)
      (h : BatchReach s) :
      BatchReach (retryBatchItemRoute itemId s)
  | setStatus {s : JState} (status : BatchStatus) (h : BatchReach s) :
      BatchReach { s with batch := updateBatchStatusRow status s.batch }

/-- A task is resolved (terminal). -/
def isTerminal (st : ItemStatus) : Bool :=
  st == ItemStatus.completed || st == ItemStatus.failed

/-- Row-level payload invariant: output non-null iff completed, error
non-null iff failed. -/
def ItemInv (it : BatchItem) : Prop :=
  (it.generated_image ≠ none ↔ it.status = ItemStatus.completed) ∧
  (it.error ≠ none ↔ it.status = ItemStatus.failed)

/-- Job-level inductive invariant: distinct row ids, and the three counters
are exactly the row count, the resolved count and the failed count. -/
def JInv (s : JState) : Prop :=
  ((s.items.map (·.id)).Nodup) ∧
  s.batch.total_items = (s.items.length : Int) ∧
  s.batch.completed_items = ((s.items.countP fun it => isTerminal it.status) : Int) ∧
  s.batch.failed_items = ((s.items.countP fun it => it.status == ItemStatus.failed) : Int) ∧
  ∀ it ∈ s.items, ItemInv it

def c2specs : List BatchItemSpec :=
  [{ filename := "a.png", image := "A", mimeType := "image/png" },
   { filename := "b.png", image := "B", mimeType := "image/png" }]

def c2state0 : JState := createBatchState 1 "make it pretty" none c2specs

def c2state1 : JState :=
  { c2state0 with items := updateBatchItemStatus 0 .processing none c2state0.items }

def c2failResult : GenResult :=
  { success := false, image := none, mimeType := none
    error := some "boom", errorCode := some "API_ERROR" }

def c2state2 : JState := resolveBatchItem 0 c2failResult 7 c2state1

def c2state3 : JState := retryBatchItemRoute 0 c2state2

def c2rowPending : BatchItem :=
  { id := 0, batch_id := 1, filename := "a.png", original_image := "A"
    original_mime_type := "image/png", generated_image := none
    generated_mime_type := none, status := .pending, error := none
    processing_time := none }

def c2rowProcessing : BatchItem := { c2rowPending with status := .processing }

def c2rowFailed : BatchItem :=
  { c2rowPending with status := .failed, error := some "boom", processing_time := some 7 }

def c3specs : List BatchItemSpec :=
  [{ filename := "slide.png", image := "S", mimeType := "image/png" }]

def c3state0 : JState := createBatchState 2 "beautify" (some "16:9") c3specs

def c3state1 : JState :=
  { c3state0 with items := updateBatchItemStatus 0 .processing none c3state0.items }

def c3okResult : GenResult :=
  { success := true, image := some "IMG", mimeType := some "image/png"
    error := none, errorCode := none }

def c3state2 : JState := resolveBatchItem 0 c3okResult 5 c3state1

def c3rowPending : BatchItem :=
  { id := 0, batch_id := 2, filename := "slide.png", original_image := "S"
    original_mime_type := "image/png", generated_image := none
    generated_mime_type := none, status := .pending, error := none
    processing_time := none }

def c3rowProcessing : BatchItem := { c3rowPending with status := .processing }

def c3rowCompleted : BatchItem :=
  { c3rowPending with
    status := .completed
    generated_image := some "IMG"
    generated_mime_type := some "image/png"
    processing_time := some 5 }

/-! ### Claim C7: processing order of getNextPendingTask -/
def c7itemA : BatchItem :=
  { id := 2, batch_id := 7, filename := "a.png", original_image := "A"
    original_mime_type := "image/png", generated_image := none
    generated_mime_type := none, status := .pending, error := none
    processing_time := none }

def c7itemB : BatchItem :=
  { id := 1, batch_id := 7, filename := "b.png", original_image := "B"
    original_mime_type := "image/png", generated_image := none
    generated_mime_type := none, status := .pending, error := none
    processing_time := none }

def c7items : List BatchItem := [c7itemA, c7itemB]

def c7slide1 : PptxSlide :=
  { id := 10, job_id := 3, slide_number := 2, status := .pending
    original_image := "O2", beautified_image := none, error := none
    processing_time := none }

def c7slide2 : PptxSlide :=
  { id := 11, job_id := 3, slide_number := 1, status := .pending
    original_image := "O1", beautified_image := none, error := none
    processing_time := none }

def c7slides : List PptxSlide := [c7slide1, c7slide2]

/-! ### Claim C9: setTaskStatus does not guard the task lifecycle -/
def c9row : BatchItem :=
  { id := 4, batch_id := 1, filename := "x.png", original_image := "X"
    original_mime_type := "image/png", generated_image := some "G"
    generated_mime_type := some "image/png", status := .completed, error := none
    processing_time := some 12 }

def c9slide : PptxSlide :=
  { id := 6, job_id := 2, slide_number := 3, status := .completed
    original_image := "O", beautified_image := some "B", error := none
    processing_time := some 9 }

/-! ### Claim C8: missing credential behavior of the gateway -/
def c8resp : ApiResponse := { candidates := some [] }

def c4bsys : BSys := { store := { batches := [], items := [] }, reg := [(5, true)] }

def c4psys : PSys :=
  { store := { jobs := [], slides := [] }, reg := [(5, true)], results := [] }

def c5bsys : BSys := { store := { batches := [], items := [] }, reg := [] }

def c5psys : PSys := { store := { jobs := [], slides := [] }, reg := [], results := [] }

/-! ### Claim C6: Task Runner failure handling -/
/-- `SELECT * FROM pptx_slides WHERE id = ?` (getPptxSlide). -/
def getPptxSlide (id : Nat) (slides : List PptxSlide) : Option PptxSlide :=
  slides.find? (fun sl => sl.id == id)

/-- The error text the runner records: the gateway failure message with the
JS fallback, or the caught exception message. -/
def gwFailText : GwOutcome → String
  | .result r => jsOrDefault r.error "Unknown error"
  | .thrown m => m

/-- The gateway outcome is a failure at the batch branch condition. -/
def gwIsBatchFailure : GwOutcome → Prop
  | .result r => batchSuccessCond r = false
  | .thrown _ => True

/-- The gateway outcome is a failure at the pptx branch condition. -/
def gwIsPptxFailure : GwOutcome → Prop
  | .result r => pptxSuccessCond r = false
  | .thrown _ => True

def c6item : BatchItem :=
  { id := 0, batch_id := 1, filename := "p.png", original_image := "P"
    original_mime_type := "image/png", generated_image := none
    generated_mime_type := none, status := .pending, error := none
    processing_time := none }

def c6batch : Batch :=
  { id := 1, status := .processing, total_items := 1, completed_items := 0
    failed_items := 0, prompt := "x", aspect_ratio := none, completed_at := none }

def c6store : BatchStore := { batches := [c6batch], items := [c6item] }

def c6slide : PptxSlide :=
  { id := 0, job_id := 2, slide_number := 1, status := .pending
    original_image := "O", beautified_image := none, error := none
    processing_time := none }

def c6job : PptxJob :=
  { id := 2, status := .processing, total_slides := 1, completed_slides := 0
    failed_slides := 0, prompt := "y", aspect_ratio := none, completed_at := none }

def c6pt : PptxStore := { jobs := [c6job], slides := [c6slide] }

def c6gw : GwOutcome :=
  GwOutcome.result
    { success := false, image := none, mimeType := none
      error := some "Rate limit exceeded. Please try again later."
      errorCode := some "RATE_LIMIT" }

def c6gw2 : GwOutcome := GwOutcome.thrown "socket hang up"

def c10slideFailed : PptxSlide :=
  { id := 1, job_id := 4, slide_number := 2, status := .failed
    original_image := "O2", beautified_image := none, error := some "e"
    processing_time := some 3 }

def c10slideDone : PptxSlide :=
  { id := 2, job_id := 4, slide_number := 1, status := .completed
    original_image := "O1", beautified_image := some "B1", error := none
    processing_time := some 2 }

def c10slidePending : PptxSlide :=
  { id := 3, job_id := 4, slide_number := 3, status := .pending
    original_image := "O3", beautified_image := none, error := none
    processing_time := none }

def c10slides : List PptxSlide := [c10slideFailed, c10slideDone, c10slidePending]

/-! ### Claim C1: what a cancelled drain actually finalizes to

The claim (and spec section 4.4 step 6) says a loop that broke on
cancellation finalizes the job as failed and skips assembly. In the source,
both processors fall through to the same post-loop finalization whether the
loop drained or broke: the batch job is marked completed unless every item
failed, and the deck job even runs the assembly phase and stores a
deliverable — overwriting the failed status the cancel route had written.
The theorem below evaluates both processors on a 2-task job where task 1
succeeds and cancellation is observed at the next loop boundary. -/
def c1batch : Batch :=
  { id := 1, status := .pending, total_items := 2, completed_items := 0
    failed_items := 0, prompt := "p", aspect_ratio := none, completed_at := none }

def c1item1 : BatchItem :=
  { id := 1, batch_id := 1, filename := "one.png", original_image := "A"
    original_mime_type := "image/png", generated_image := none
    generated_mime_type := none, status := .pending, error := none
    processing_time := none }

def c1item2 : BatchItem :=
  { id := 2, batch_id := 1, filename := "two.png", original_image := "B"
    original_mime_type := "image/png", generated_image := none
    generated_mime_type := none, status := .pending, error := none
    processing_time := none }

def c1bsys : BSys :=
  { store := { batches := [c1batch], items := [c1item1, c1item2] }, reg := [] }

def c1okStep : StepEv :=
  { cancelBefore := false, storeFail := none
    gw := GwOutcome.result
      { success := true, image := some "IMG", mimeType := some "image/png"
        error := none, errorCode := none }
    elapsed := 5 }

def c1cancelStep : StepEv := { defaultStepEv with cancelBefore := true }

def c1trace : List StepEv := [c1okStep, c1cancelStep]

def c1job : PptxJob :=
  { id := 1, status := .pending, total_slides := 2, completed_slides := 0
    failed_slides := 0, prompt := "p", aspect_ratio := none, completed_at := none }

def c1slide1 : PptxSlide :=
  { id := 1, job_id := 1, slide_number := 1, status := .pending
    original_image := "A", beautified_image := none, error := none
    processing_time := none }

def c1slide2 : PptxSlide :=
  { id := 2, job_id := 1, slide_number := 2, status := .pending
    original_image := "B", beautified_image := none, error := none
    processing_time := none }

def c1psys : PSys :=
  { store := { jobs := [c1job], slides := [c1slide1, c1slide2] }
    reg := [], results := [] }

theorem jsOrDefault_ne_empty (o : Option String) (d : String) (hd : d ≠ "") :
    jsOrDefault o d ≠ "" := by
  cases o with
  | none => simpa [jsOrDefault] using hd
  | some s =>
    by_cases h : s = "" <;> simp [jsOrDefault, h, hd]

theorem jsStrOrNull_ne_none (s : String) (hs : s ≠ "") :
    jsStrOrNull (some s) ≠ none := by
  simp [jsStrOrNull, hs]

theorem optTruthy_iff (o : Option String) :
    optTruthy o = true ↔ ∃ s, o = some s ∧ s ≠ "" := by
  cases o with
  | none => simp [optTruthy]
  | some s => simp [optTruthy]

theorem updateWhere_eq_of_none {α : Type} (hit : α → Bool) (g : α → α) (l : List α)
    (h : ∀ a ∈ l, hit a = false) : updateWhere hit g l = l := by
  induction l with
  | nil => rfl
  | cons b t ih =>
    have hb := h b (List.mem_cons_self b t)
    have ht := ih fun a ha => h a (List.mem_cons_of_mem b ha)
    simp only [updateWhere] at ht ⊢
    simp [hb, ht]

theorem length_updateWhere {α : Type} (hit : α → Bool) (g : α → α) (l : List α) :
    (updateWhere hit g l).length = l.length := by
  simp [updateWhere]

theorem mem_updateWhere {α : Type} (hit : α → Bool) (g : α → α) (l : List α)
    (b : α) (hb : b ∈ updateWhere hit g l) :
    ∃ a ∈ l, b = if hit a then g a else a := by
  simp only [updateWhere, List.mem_map] at hb
  obtain ⟨a, ha, rfl⟩ := hb
  exact ⟨a, ha, rfl⟩

theorem map_key_updateWhere {α : Type} (key : α → Nat) (hit : α → Bool) (g : α → α)
    (hg : ∀ a, key (g a) = key a) (l : List α) :
    (updateWhere hit g l).map key = l.map key := by
  induction l with
  | nil => rfl
  | cons b t ih =>
    simp only [updateWhere, List.map_cons] at *
    refine congrArg₂ (· :: ·) ?_ ih
    by_cases h : hit b <;> simp [h, hg]

theorem countP_updateWhere_key {α : Type} (key : α → Nat) (g : α → α) (p : α → Bool)
    (i : Nat) (l : List α) (hnd : (l.map key).Nodup) (a0 : α) (h0 : a0 ∈ l)
    (hk : key a0 = i) :
    ((updateWhere (fun a => key a == i) g l).countP p : Int)
      = (l.countP p : Int) - (cond (p a0) 1 0) + (cond (p (g a0)) 1 0) := by
  induction l with
  | nil => cases h0
  | cons b t ih =>
    simp only [List.map_cons, List.nodup_cons] at hnd
    simp only [updateWhere, List.map_cons, List.countP_cons]
    rcases List.mem_cons.mp h0 with heq | h0
    · subst heq
      have h1 : (if (key a0 == i) = true then g a0 else a0) = g a0 := by simp [hk]
      have hrest : List.map (fun a => if (key a == i) = true then g a else a) t = t := by
        have hnone := updateWhere_eq_of_none (fun a => key a == i) g t (fun a ha => by
          have hne : key a ≠ i := fun hcontra =>
            hnd.1 (by simpa [hk, hcontra] using List.mem_map_of_mem key ha)
          simp [hne])
        simpa [updateWhere] using hnone
      rw [h1, hrest]
      cases hp : p a0 <;> cases hpg : p (g a0) <;> simp [hp, hpg]
    · have hb : key b ≠ i := fun hcontra =>
        hnd.1 (by simpa [hk, hcontra] using List.mem_map_of_mem key h0)
      have h1 : (if (key b == i) = true then g b else b) = b := by simp [hb]
      rw [h1]
      have ihh := ih hnd.2 h0
      simp only [updateWhere] at ihh
      cases hp : p b <;> simp only [hp, cond_true, cond_false] at * <;> push_cast at * <;> omega

theorem find?_key_updateWhere {α : Type} (key : α → Nat) (g : α → α)
    (hg : ∀ a, key (g a) = key a) (i j : Nat) (l : List α) :
    (updateWhere (fun a => key a == j) g l).find? (fun a => key a == i)
      = (l.find? (fun a => key a == i)).map (fun a => if key a == j then g a else a) := by
  induction l with
  | nil => rfl
  | cons b t ih =>
    simp only [updateWhere, List.map_cons]
    by_cases hj : key b = j
    · have h1 : (if (key b == j) = true then g b else b) = g b := by simp [hj]
      rw [h1]
      by_cases hi : key b = i
      · rw [List.find?_cons_of_pos _ (by simp [hg, hi]), List.find?_cons_of_pos _ (by simp [hi])]
        simp [hj]
      · rw [List.find?_cons_of_neg _ (by simp [hg, hi]), List.find?_cons_of_neg _ (by simp [hi])]
        simpa [updateWhere] using ih
    · have h1 : (if (key b == j) = true then g b else b) = b := by simp [hj]
      rw [h1]
      by_cases hi : key b = i
      · rw [List.find?_cons_of_pos _ (by simp [hi]), List.find?_cons_of_pos _ (by simp [hi])]
        simp [hj]
      · rw [List.find?_cons_of_neg _ (by simp [hi]), List.find?_cons_of_neg _ (by simp [hi])]
        simpa [updateWhere] using ih

theorem minByKey_eq_none {α : Type} (key : α → Nat) (l : List α) :
    minByKey key l = none ↔ l = [] := by
  cases l with
  | nil => simp [minByKey]
  | cons a t =>
    simp only [minByKey]
    cases ht : minByKey key t with
    | none => simp
    | some b => by_cases h : key a ≤ key b <;> simp [h]

theorem minByKey_spec {α : Type} (key : α → Nat) (l : List α) (a : α)
    (h : minByKey key l = some a) : a ∈ l ∧ ∀ b ∈ l, key a ≤ key b := by
  induction l generalizing a with
  | nil => cases h
  | cons c t ih =>
    cases ht : minByKey key t with
    | none =>
      have hempty : t = [] := (minByKey_eq_none key t).mp ht
      subst hempty
      simp only [minByKey] at h
      obtain rfl := Option.some.inj h
      refine ⟨List.mem_cons_self _ _, fun b hb => ?_⟩
      rcases List.mem_cons.mp hb with rfl | hb
      · exact le_refl _
      · cases hb
    | some m =>
      obtain ⟨hm, hmin⟩ := ih m ht
      simp only [minByKey, ht] at h
      by_cases hc : key c ≤ key m
      · rw [if_pos hc] at h
        obtain rfl := Option.some.inj h
        refine ⟨List.mem_cons_self _ _, fun b hb => ?_⟩
        rcases List.mem_cons.mp hb with rfl | hb
        · exact le_refl _
        · exact le_trans hc (hmin b hb)
      · rw [if_neg hc] at h
        obtain rfl := Option.some.inj h
        refine ⟨List.mem_cons_of_mem _ hm, fun b hb => ?_⟩
        rcases List.mem_cons.mp hb with rfl | hb
        · exact le_of_not_le hc
        · exact hmin b hb

theorem mapGet_mapSet_self (m : Registry) (k : Nat) (v : Bool) :
    mapGet (mapSet m k v) k = some v := by
  simp [mapGet, mapSet, List.find?]

theorem mapGet_mapDelete_self (m : Registry) (k : Nat) :
    mapGet (mapDelete m k) k = none := by
  simp only [mapGet, mapDelete]
  rw [List.find?_eq_none.mpr]
  · rfl
  · intro p hp
    have := (List.mem_filter.mp hp).2
    simpa using this

theorem ItemInv_processing (res : Option BatchItemResult) (hres : res = none)
    (a : BatchItem) : ItemInv (updateBatchItemRow .processing res a) := by
  subst hres
  simp [ItemInv, updateBatchItemRow, jsStrOrNull]

theorem ItemInv_reset (a : BatchItem) : ItemInv (resetBatchItemRow a) := by
  simp [ItemInv, resetBatchItemRow]

theorem countP_items_update (p : BatchItem → Bool) (itemId : Nat)
    (g : BatchItem → BatchItem) (items : List BatchItem)
    (hnd : (items.map (·.id)).Nodup) (it0 : BatchItem) (h0 : it0 ∈ items)
    (hid : it0.id = itemId) :
    ((updateWhere (fun it => it.id == itemId) g items).countP p : Int)
      = (items.countP p : Int) - cond (p it0) 1 0 + cond (p (g it0)) 1 0 :=
  countP_updateWhere_key (fun a => a.id) g p itemId items hnd it0 h0 hid

theorem ids_items_update (itemId : Nat) (g : BatchItem → BatchItem)
    (hg : ∀ a, (g a).id = a.id) (items : List BatchItem) :
    ((updateWhere (fun it => it.id == itemId) g items).map (·.id)) = items.map (·.id) :=
  map_key_updateWhere (fun a => a.id) _ g hg items

theorem ids_updateBatchItemStatus (itemId : Nat) (status : ItemStatus)
    (res : Option BatchItemResult) (items : List BatchItem) :
    ((updateBatchItemStatus itemId status res items).map (·.id)) = items.map (·.id) :=
  ids_items_update itemId (updateBatchItemRow status res) (fun _ => rfl) items

theorem ids_resetBatchItem (itemId : Nat) (items : List BatchItem) :
    ((resetBatchItem itemId items).map (·.id)) = items.map (·.id) :=
  ids_items_update itemId resetBatchItemRow (fun _ => rfl) items

theorem length_updateBatchItemStatus (itemId : Nat) (status : ItemStatus)
    (res : Option BatchItemResult) (items : List BatchItem) :
    (updateBatchItemStatus itemId status res items).length = items.length :=
  length_updateWhere _ _ _

theorem length_resetBatchItem (itemId : Nat) (items : List BatchItem) :
    (resetBatchItem itemId items).length = items.length :=
  length_updateWhere _ _ _

/-- The inductive invariant holds in every reachable state of a batch job. -/
theorem batchReach_inv {s : JState} (h : BatchReach s) : JInv s := by
  induction h with
  | create batchId prompt aspect specs hne =>
    refine ⟨?_, ?_, ?_, ?_, ?_⟩
    · simp only [createBatchState, List.map_map]
      have hcomp : ((fun it : BatchItem => it.id) ∘ fun p : Nat × BatchItemSpec =>
          ({ id := p.1, batch_id := batchId, filename := p.2.filename
             original_image := p.2.image, original_mime_type := p.2.mimeType
             generated_image := none, generated_mime_type := none
             status := .pending, error := none, processing_time := none } : BatchItem))
          = Prod.fst := rfl
      rw [hcomp, List.enum_map_fst]
      exact List.nodup_range _
    · simp [createBatchState]
    · simp only [createBatchState]
      rw [List.countP_eq_zero.mpr]
      · simp
      · intro a ha
        simp only [List.mem_map] at ha
        obtain ⟨p, hp, rfl⟩ := ha
        simp [isTerminal]
    · simp only [createBatchState]
      rw [List.countP_eq_zero.mpr]
      · simp
      · intro a ha
        simp only [List.mem_map] at ha
        obtain ⟨p, hp, rfl⟩ := ha
        simp
    · intro it hit
      simp only [createBatchState, List.mem_map] at hit
      obtain ⟨p, hp, rfl⟩ := hit
      simp [ItemInv]
  | @markProcessing s itemId it hmem hid hst h ih =>
    obtain ⟨hnd, htot, hcomp, hfail, hinv⟩ := ih
    have hpend : it.status = ItemStatus.pending := hst
    refine ⟨?_, ?_, ?_, ?_, ?_⟩
    · show ((updateBatchItemStatus itemId .processing none s.items).map (·.id)).Nodup
      rw [ids_updateBatchItemStatus]
      exact hnd
    · show s.batch.total_items = ((updateBatchItemStatus itemId .processing none s.items).length : Int)
      rw [length_updateBatchItemStatus]
      exact htot
    · have hc := countP_items_update (fun a => isTerminal a.status) itemId
        (updateBatchItemRow .processing none) _ hnd it hmem hid
      have e1 : isTerminal it.status = false := by rw [hpend]; rfl
      have e2 : isTerminal (updateBatchItemRow ItemStatus.processing none it).status = false := rfl
      show s.batch.completed_items
        = ((updateBatchItemStatus itemId .processing none s.items).countP
            (fun it => isTerminal it.status) : Int)
      rw [show updateBatchItemStatus itemId ItemStatus.processing none s.items
        = updateWhere (fun a => a.id == itemId) (updateBatchItemRow .processing none) s.items from rfl]
      rw [hc, hcomp]
      simp [e1, e2]
    · have hc := countP_items_update (fun a => a.status == ItemStatus.failed) itemId
        (updateBatchItemRow .processing none) _ hnd it hmem hid
      have e1 : (it.status == ItemStatus.failed) = false := by rw [hpend]; rfl
      have e2 : ((updateBatchItemRow ItemStatus.processing none it).status
          == ItemStatus.failed) = false := rfl
      show s.batch.failed_items
        = ((updateBatchItemStatus itemId .processing none s.items).countP
            (fun it => it.status == ItemStatus.failed) : Int)
      rw [show updateBatchItemStatus itemId ItemStatus.processing none s.items
        = updateWhere (fun a => a.id == itemId) (updateBatchItemRow .processing none) s.items from rfl]
      rw [hc, hfail]
      simp [e1, e2]
    · intro it' hit'
      obtain ⟨a, ha, heq⟩ := mem_updateWhere _ _ _ _ hit'
      by_cases hhit : (a.id == itemId) = true
      · rw [heq, if_pos hhit]
        exact ItemInv_processing none rfl a
      · rw [heq, if_neg (by simpa using hhit)]
        exact hinv a ha
  | @resolve s itemId r elapsed it hmem hid hst h ih =>
    obtain ⟨hnd, htot, hcomp, hfail, hinv⟩ := ih
    have hproc : it.status = ItemStatus.processing := hst
    by_cases hok : batchSuccessCond r = true
    · have himg : ∃ simg, r.image = some simg ∧ simg ≠ "" := by
        have htr : optTruthy r.image = true := by
          simp only [batchSuccessCond, Bool.and_eq_true] at hok
          exact hok.1.2
        exact (optTruthy_iff r.image).mp htr
      obtain ⟨simg, himg, hne⟩ := himg
      have hstate : resolveBatchItem itemId r elapsed s =
          { batch := incrementBatchRow false s.batch
            items := updateBatchItemStatus itemId .completed
              (some { generatedImage := r.image, generatedMimeType := r.mimeType
                      error := none, processingTime := some elapsed }) s.items } := by
        simp [resolveBatchItem, hok]
      rw [hstate]
      refine ⟨?_, ?_, ?_, ?_, ?_⟩
      · show ((updateBatchItemStatus itemId _ _ s.items).map (·.id)).Nodup
        rw [ids_updateBatchItemStatus]
        exact hnd
      · show (incrementBatchRow false s.batch).total_items
          = ((updateBatchItemStatus itemId _ _ s.items).length : Int)
        rw [length_updateBatchItemStatus]
        simpa [incrementBatchRow] using htot
      · have hc := countP_items_update (fun a => isTerminal a.status) itemId
          (updateBatchItemRow .completed
            (some { generatedImage := r.image, generatedMimeType := r.mimeType
                    error := none, processingTime := some elapsed })) _ hnd it hmem hid
        have e1 : isTerminal it.status = false := by rw [hproc]; rfl
        show (incrementBatchRow false s.batch).completed_items
          = ((updateBatchItemStatus itemId _ _ s.items).countP
              (fun it => isTerminal it.status) : Int)
        rw [show (updateBatchItemStatus itemId ItemStatus.completed
            (some { generatedImage := r.image, generatedMimeType := r.mimeType
                    error := none, processingTime := some elapsed }) s.items)
          = updateWhere (fun a => a.id == itemId) (updateBatchItemRow .completed
            (some { generatedImage := r.image, generatedMimeType := r.mimeType
                    error := none, processingTime := some elapsed })) s.items from rfl]
        rw [hc]
        simp only [incrementBatchRow]
        rw [hcomp]
        have b2 : isTerminal (updateBatchItemRow ItemStatus.completed
          (some { generatedImage := r.image, generatedMimeType := r.mimeType
                  error := none, processingTime := some elapsed }) it).status = true := rfl
        simp [e1, b2]
      · have hc := countP_items_update (fun a => a.status == ItemStatus.failed) itemId
          (updateBatchItemRow .completed
            (some { generatedImage := r.image, generatedMimeType := r.mimeType
                    error := none, processingTime := some elapsed })) _ hnd it hmem hid
        have e1 : (it.status == ItemStatus.failed) = false := by rw [hproc]; rfl
        show (incrementBatchRow false s.batch).failed_items
          = ((updateBatchItemStatus itemId _ _ s.items).countP
              (fun it => it.status == ItemStatus.failed) : Int)
        rw [show (updateBatchItemStatus itemId ItemStatus.completed
            (some { generatedImage := r.image, generatedMimeType := r.mimeType
                    error := none, processingTime := some elapsed }) s.items)
          = updateWhere (fun a => a.id == itemId) (updateBatchItemRow .completed
            (some { generatedImage := r.image, generatedMimeType := r.mimeType
                    error := none, processingTime := some elapsed })) s.items from rfl]
        rw [hc]
        simp only [incrementBatchRow]
        rw [hfail]
        have b2 : ((updateBatchItemRow ItemStatus.completed
          (some { generatedImage := r.image, generatedMimeType := r.mimeType
                  error := none, processingTime := some elapsed }) it).status
            == ItemStatus.failed) = false := rfl
        simp [e1, b2]
      · intro it' hit'
        obtain ⟨a, ha, heq⟩ := mem_updateWhere _ _ _ _ hit'
        by_cases hhit : (a.id == itemId) = true
        · rw [heq, if_pos hhit]
          constructor
          · simp [updateBatchItemRow, himg, jsStrOrNull, hne]
          · simp [updateBatchItemRow, jsStrOrNull]
        · rw [heq, if_neg (by simpa using hhit)]
          exact hinv a ha
    · have hstate : resolveBatchItem itemId r elapsed s =
          { batch := incrementBatchRow true s.batch
            items := updateBatchItemStatus itemId .failed
              (some { generatedImage := none, generatedMimeType := none
                      error := some (jsOrDefault r.error "Unknown error")
                      processingTime := some elapsed }) s.items } := by
        simp [resolveBatchItem, hok]
      rw [hstate]
      refine ⟨?_, ?_, ?_, ?_, ?_⟩
      · show ((updateBatchItemStatus itemId _ _ s.items).map (·.id)).Nodup
        rw [ids_updateBatchItemStatus]
        exact hnd
      · show (incrementBatchRow true s.batch).total_items
          = ((updateBatchItemStatus itemId _ _ s.items).length : Int)
        rw [length_updateBatchItemStatus]
        simpa [incrementBatchRow] using htot
      · have hc := countP_items_update (fun a => isTerminal a.status) itemId
          (updateBatchItemRow .failed
            (some { generatedImage := none, generatedMimeType := none
                    error := some (jsOrDefault r.error "Unknown error")
                    processingTime := some elapsed })) _ hnd it hmem hid
        have e1 : isTerminal it.status = false := by rw [hproc]; rfl
        show (incrementBatchRow true s.batch).completed_items
          = ((updateBatchItemStatus itemId _ _ s.items).countP
              (fun it => isTerminal it.status) : Int)
        rw [show (updateBatchItemStatus itemId ItemStatus.failed
            (some { generatedImage := none, generatedMimeType := none
                    error := some (jsOrDefault r.error "Unknown error")
                    processingTime := some elapsed }) s.items)
          = updateWhere (fun a => a.id == itemId) (updateBatchItemRow .failed
            (some { generatedImage := none, generatedMimeType := none
                    error := some (jsOrDefault r.error "Unknown error")
                    processingTime := some elapsed })) s.items from rfl]
        rw [hc]
        simp only [incrementBatchRow]
        rw [hcomp]
        have b2 : isTerminal (updateBatchItemRow ItemStatus.failed
          (some { generatedImage := none, generatedMimeType := none
                  error := some (jsOrDefault r.error "Unknown error")
                  processingTime := some elapsed }) it).status = true := rfl
        simp [e1, b2]
      · have hc := countP_items_update (fun a => a.status == ItemStatus.failed) itemId
          (updateBatchItemRow .failed
            (some { generatedImage := none, generatedMimeType := none
                    error := some (jsOrDefault r.error "Unknown error")
                    processingTime := some elapsed })) _ hnd it hmem hid
        have e1 : (it.status == ItemStatus.failed) = false := by rw [hproc]; rfl
        show (incrementBatchRow true s.batch).failed_items
          = ((updateBatchItemStatus itemId _ _ s.items).countP
              (fun it => it.status == ItemStatus.failed) : Int)
        rw [show (updateBatchItemStatus itemId ItemStatus.failed
            (some { generatedImage := none, generatedMimeType := none
                    error := some (jsOrDefault r.error "Unknown error")
                    processingTime := some elapsed }) s.items)
          = updateWhere (fun a => a.id == itemId) (updateBatchItemRow .failed
            (some { generatedImage := none, generatedMimeType := none
                    error := some (jsOrDefault r.error "Unknown error")
                    processingTime := some elapsed })) s.items from rfl]
        rw [hc]
        simp only [incrementBatchRow]
        rw [hfail]
        have b2 : ((updateBatchItemRow ItemStatus.failed
          (some { generatedImage := none, generatedMimeType := none
                  error := some (jsOrDefault r.error "Unknown error")
                  processingTime := some elapsed }) it).status
            == ItemStatus.failed) = true := rfl
        simp [e1, b2]
      · intro it' hit'
        obtain ⟨a, ha, heq⟩ := mem_updateWhere _ _ _ _ hit'
        by_cases hhit : (a.id == itemId) = true
        · rw [heq, if_pos hhit]
          constructor
          · simp [updateBatchItemRow, jsStrOrNull]
          · simp [updateBatchItemRow, jsStrOrNull,
              jsOrDefault_ne_empty r.error "Unknown error" (by decide)]
        · rw [heq, if_neg (by simpa using hhit)]
          exact hinv a ha
  | @retry s itemId it hmem hid hst h ih =>
    obtain ⟨hnd, htot, hcomp, hfail, hinv⟩ := ih
    have hfailed : it.status = ItemStatus.failed := hst
    have hitems : (retryBatchItemRoute itemId s).items = resetBatchItem itemId s.items := by
      simp only [retryBatchItemRoute]
    have hb1 : (retryBatchItemRoute itemId s).batch.total_items = s.batch.total_items := by
      simp only [retryBatchItemRoute]
      split <;> simp [updateBatchStatusRow, decrementBatchRow]
    have hb2 : (retryBatchItemRoute itemId s).batch.completed_items
        = s.batch.completed_items - 1 := by
      simp only [retryBatchItemRoute]
      split <;> simp [updateBatchStatusRow, decrementBatchRow]
    have hb3 : (retryBatchItemRoute itemId s).batch.failed_items
        = s.batch.failed_items - 1 := by
      simp only [retryBatchItemRoute]
      split <;> simp [updateBatchStatusRow, decrementBatchRow]
    refine ⟨?_, ?_, ?_, ?_, ?_⟩
    · rw [hitems, ids_resetBatchItem]
      exact hnd
    · rw [hb1, hitems, length_resetBatchItem]
      exact htot
    · rw [hb2, hitems]
      have hc := countP_items_update (fun a => isTerminal a.status) itemId
        resetBatchItemRow _ hnd it hmem hid
      have e1 : isTerminal it.status = true := by rw [hfailed]; rfl
      have e2 : isTerminal (resetBatchItemRow it).status = false := rfl
      rw [show resetBatchItem itemId s.items
        = updateWhere (fun a => a.id == itemId) resetBatchItemRow s.items from rfl]
      rw [hc, hcomp]
      simp [e1, e2]
    · rw [hb3, hitems]
      have hc := countP_items_update (fun a => a.status == ItemStatus.failed) itemId
        resetBatchItemRow _ hnd it hmem hid
      have e1 : (it.status == ItemStatus.failed) = true := by rw [hfailed]; rfl
      have e2 : ((resetBatchItemRow it).status == ItemStatus.failed) = false := rfl
      rw [show resetBatchItem itemId s.items
        = updateWhere (fun a => a.id == itemId) resetBatchItemRow s.items from rfl]
      rw [hc, hfail]
      simp [e1, e2]
    · rw [hitems]
      intro it' hit'
      obtain ⟨a, ha, heq⟩ := mem_updateWhere _ _ _ _ hit'
      by_cases hhit : (a.id == itemId) = true
      · rw [heq, if_pos hhit]
        exact ItemInv_reset a
      · rw [heq, if_neg (by simpa using hhit)]
        exact hinv a ha
  | setStatus status h ih =>
    obtain ⟨hnd, htot, hcomp, hfail, hinv⟩ := ih
    exact ⟨hnd, by simpa [updateBatchStatusRow] using htot,
      by simpa [updateBatchStatusRow] using hcomp,
      by simpa [updateBatchStatusRow] using hfail, hinv⟩

/-! ### Claim C2: counter invariant -/
/-- C2: for every batch job, in every state reachable from creation through
any sequence of task runs (success or failure) with their increments and
guarded retries (reset of a failed task plus counter decrement), the
counters satisfy 0 <= failed_count <= completed_count <= total_count. -/
theorem C2_counters_invariant {s : JState} (h : BatchReach s) :
    0 ≤ s.batch.failed_items ∧ s.batch.failed_items ≤ s.batch.completed_items ∧
      s.batch.completed_items ≤ s.batch.total_items := by
  obtain ⟨hnd, htot, hcomp, hfail, hinv⟩ := batchReach_inv h
  refine ⟨?_, ?_, ?_⟩
  · rw [hfail]
    exact Int.natCast_nonneg _
  · rw [hfail, hcomp]
    have hmono := List.countP_mono_left (l := s.items)
      (p := fun it => it.status == ItemStatus.failed)
      (q := fun it => isTerminal it.status)
      (fun a _ hpa => by simp [isTerminal, hpa])
    exact_mod_cast hmono
  · rw [hcomp, htot]
    exact_mod_cast List.countP_le_length _

theorem c2reach3 : BatchReach c2state3 :=
  BatchReach.retry 0 c2rowFailed (by decide) (by decide) (by decide)
    (BatchReach.resolve 0 c2failResult 7 c2rowProcessing (by decide) (by decide) (by decide)
      (BatchReach.markProcessing 0 c2rowPending (by decide) (by decide) (by decide)
        (BatchReach.create 1 "make it pretty" none c2specs (by decide))))

/-- Witness for C2: the invariant evaluated after create, run-to-failure and
retry of item 0. -/
theorem C2_counters_invariant_witness :
    0 ≤ c2state3.batch.failed_items ∧
      c2state3.batch.failed_items ≤ c2state3.batch.completed_items ∧
      c2state3.batch.completed_items ≤ c2state3.batch.total_items :=
  C2_counters_invariant c2reach3

/-! ### Claim C3: payload/error null-ness tracks the status -/
/-- C3: in every reachable state of a batch job, a task row has a non-null
generated output payload iff its status is completed, and a non-null error
message iff its status is failed. -/
theorem C3_payload_iff_status {s : JState} (h : BatchReach s) :
    ∀ it ∈ s.items,
      (it.generated_image ≠ none ↔ it.status = ItemStatus.completed) ∧
      (it.error ≠ none ↔ it.status = ItemStatus.failed) :=
  fun it hmem => (batchReach_inv h).2.2.2.2 it hmem

theorem c3reach2 : BatchReach c3state2 :=
  BatchReach.resolve 0 c3okResult 5 c3rowProcessing (by decide) (by decide) (by decide)
    (BatchReach.markProcessing 0 c3rowPending (by decide) (by decide) (by decide)
      (BatchReach.create 2 "beautify" (some "16:9") c3specs (by decide)))

/-- Witness for C3: the completed row of a concrete one-item drain. -/
theorem C3_payload_iff_status_witness :
    (c3rowCompleted.generated_image ≠ none ↔ c3rowCompleted.status = ItemStatus.completed) ∧
    (c3rowCompleted.error ≠ none ↔ c3rowCompleted.status = ItemStatus.failed) :=
  C3_payload_iff_status c3reach2 c3rowCompleted (by decide)

/-- C7 counterexample: getNextPendingBatchItem orders by row id, not by the
filename ordinal the claim names. With two pending items whose id order and
filename order disagree, it returns the one with filename b.png although a
pending item of the same batch with the strictly smaller filename a.png
exists. -/
theorem C7_counterexample :
    getNextPendingBatchItem 7 c7items = some c7itemB ∧
    c7itemB.filename = "b.png" ∧
    c7itemA ∈ c7items ∧ c7itemA.batch_id = 7 ∧ c7itemA.status = ItemStatus.pending ∧
    c7itemA.filename < c7itemB.filename := by
  refine ⟨by decide, rfl, by decide, rfl, rfl, ?_⟩
  rw [String.lt_iff_toList_lt]
  exact List.Lex.rel (by decide)

/-- C7 amended: getNextPendingBatchItem returns a still-pending item of the
batch with the lowest row id (insertion order), or none; getNextPendingPptxSlide
returns the still-pending slide of the job with the lowest slide number, or
none. Only the deck variant orders by the ordinal named in the claim; the
batch variant orders by id, not filename. -/
theorem C7_next_pending_lowest_ordinal
    (batchId jobId : Nat) (items : List BatchItem) (slides : List PptxSlide)
    (it : BatchItem) (sl : PptxSlide)
    (hb : getNextPendingBatchItem batchId items = some it)
    (hp : getNextPendingPptxSlide jobId slides = some sl) :
    (it ∈ items ∧ it.batch_id = batchId ∧ it.status = ItemStatus.pending ∧
      ∀ j ∈ items, j.batch_id = batchId → j.status = ItemStatus.pending → it.id ≤ j.id) ∧
    (sl ∈ slides ∧ sl.job_id = jobId ∧ sl.status = ItemStatus.pending ∧
      ∀ j ∈ slides, j.job_id = jobId → j.status = ItemStatus.pending →
        sl.slide_number ≤ j.slide_number) := by
  obtain ⟨hmem, hmin⟩ := minByKey_spec _ _ _ hb
  obtain ⟨hmem2, hmin2⟩ := minByKey_spec _ _ _ hp
  have hf := List.mem_filter.mp hmem
  have hf2 := List.mem_filter.mp hmem2
  obtain ⟨hm1, hcond1⟩ := hf
  obtain ⟨hm2, hcond2⟩ := hf2
  simp only [Bool.and_eq_true, beq_iff_eq] at hcond1 hcond2
  refine ⟨⟨hm1, hcond1.1, hcond1.2, ?_⟩, ⟨hm2, hcond2.1, hcond2.2, ?_⟩⟩
  · intro j hj hjb hjs
    exact hmin j (List.mem_filter.mpr ⟨hj, by simp [hjb, hjs]⟩)
  · intro j hj hjb hjs
    exact hmin2 j (List.mem_filter.mpr ⟨hj, by simp [hjb, hjs]⟩)

/-- Witness for the amended C7 at concrete stores. -/
theorem C7_next_pending_lowest_ordinal_witness :
    getNextPendingBatchItem 7 c7items = some c7itemB ∧ c7itemB.id ≤ c7itemA.id ∧
    getNextPendingPptxSlide 3 c7slides = some c7slide2 ∧
    c7slide2.slide_number ≤ c7slide1.slide_number := by
  have h := C7_next_pending_lowest_ordinal 7 3 c7items c7slides c7itemB c7slide2
    (by decide) (by decide)
  exact ⟨by decide, h.1.2.2.2 c7itemA (by decide) rfl rfl, by decide,
    h.2.2.2.2 c7slide1 (by decide) rfl rfl⟩

/-- C9 counterexample: both update operations accept a transition of a
completed row back to pending and apply it as an ordinary update — the
resulting row is exactly what the dedicated reset operation produces — with
no rejection and no flagging of any kind. -/
theorem C9_counterexample :
    updateBatchItemRow .pending none c9row = resetBatchItemRow c9row ∧
    (updateBatchItemRow .pending none c9row).status = ItemStatus.pending ∧
    updatePptxSlideRow .pending none c9slide = resetPptxSlideRow c9slide ∧
    (updatePptxSlideRow .pending none c9slide).status = ItemStatus.pending := by
  refine ⟨by decide, rfl, by decide, rfl⟩

/-- C9 amended: updateBatchItemStatus and updatePptxSlideStatus apply any
requested status unconditionally, including pending; called with pending and
no result they coincide with the dedicated reset operation. No transition is
rejected or flagged. -/
theorem C9_update_applies_unconditionally (status : ItemStatus)
    (res : Option BatchItemResult) (res2 : Option PptxSlideResult)
    (it : BatchItem) (sl : PptxSlide) :
    (updateBatchItemRow status res it).status = status ∧
    updateBatchItemRow .pending none it = resetBatchItemRow it ∧
    (updatePptxSlideRow status res2 sl).status = status ∧
    updatePptxSlideRow .pending none sl = resetPptxSlideRow sl := by
  refine ⟨rfl, ?_, rfl, ?_⟩ <;>
    simp [updateBatchItemRow, resetBatchItemRow, updatePptxSlideRow, resetPptxSlideRow,
      jsStrOrNull, jsNatOrNull]

/-- C8 counterexample: with GEMINI_API_KEY absent, the try body of
generateImage does throw from getClient, but generateImage catches it and
returns an ordinary per-call failure result classified API_ERROR — no
exception reaches the caller. -/
theorem C8_counterexample :
    generateImageTry none (ApiCall.success c8resp)
      = Except.error "GEMINI_API_KEY environment variable is not set" ∧
    generateImage none (ApiCall.success c8resp)
      = { success := false, image := none, mimeType := none
          error := some "API error: GEMINI_API_KEY environment variable is not set"
          errorCode := some "API_ERROR" } := by
  refine ⟨rfl, by decide⟩

/-- C8 amended: when the credential is missing, every generateImage call
returns a per-call failure result (success false, errorCode API_ERROR,
message naming the unset variable), exactly like other gateway-classified
API failures, instead of propagating a configuration exception. -/
theorem C8_missing_key_failure_result (call : ApiCall) :
    generateImage none call
      = { success := false, image := none, mimeType := none
          error := some "API error: GEMINI_API_KEY environment variable is not set"
          errorCode := some "API_ERROR" } := rfl

/-! ### Claim C4: idempotent start -/
/-- C4: calling the processor for a job id that the registry already marks
active is a complete no-op: the call returns immediately with the whole
system state (stores, registry, results) unchanged and no exception, so a
second back-to-back run adds nothing to the drain of the first. -/
theorem C4_duplicate_start_noop (fuel : Nat) (trace : List StepEv) (jobId : Nat)
    (s : BSys) (p : PSys) (asmFail : Bool)
    (hb : mapGet s.reg jobId = some true)
    (hp : mapGet p.reg jobId = some true) :
    processBatch fuel trace jobId s = (s, none) ∧
    processPptxJob fuel trace asmFail jobId p = (p, none) := by
  constructor
  · simp [processBatch, hb]
  · simp [processPptxJob, hp]

/-- Witness for C4 with job 5 registered active. -/
theorem C4_duplicate_start_noop_witness :
    processBatch 3 [] 5 c4bsys = (c4bsys, none) ∧
    processPptxJob 3 [] false 5 c4psys = (c4psys, none) :=
  C4_duplicate_start_noop 3 [] 5 c4bsys c4psys false (by decide) (by decide)

/-! ### Claim C5: the registry entry is always removed -/
/-- C5: whenever a processor call passes the duplicate-start guard and
actually runs — and then exits through normal drain, cancellation break,
job-not-found, or an exception escaping the loop — the finally step has
removed the job id from the activity registry by the time the call
completes, for any environment trace whatsoever. -/
theorem C5_always_deregisters (fuel : Nat) (trace : List StepEv) (jobId : Nat)
    (s : BSys) (p : PSys) (asmFail : Bool)
    (hb : mapGet s.reg jobId ≠ some true)
    (hp : mapGet p.reg jobId ≠ some true) :
    mapGet (processBatch fuel trace jobId s).1.reg jobId = none ∧
    mapGet (processPptxJob fuel trace asmFail jobId p).1.reg jobId = none := by
  constructor
  · simp only [processBatch, if_neg hb]
    rcases hbody : processBatchBody fuel trace jobId
      { s with reg := mapSet s.reg jobId true } with ⟨s1, exc⟩
    simp [hbody, mapGet_mapDelete_self]
  · simp only [processPptxJob, if_neg hp]
    rcases hbody : processPptxBody fuel trace asmFail jobId
      { p with reg := mapSet p.reg jobId true } with ⟨p1, exc⟩
    simp [hbody, mapGet_mapDelete_self]

/-- Witness for C5: a run on an empty store (the job-not-found exit path)
still leaves no registry entry behind. -/
theorem C5_always_deregisters_witness :
    mapGet (processBatch 2 [] 1 c5bsys).1.reg 1 = none ∧
    mapGet (processPptxJob 2 [] false 1 c5psys).1.reg 1 = none :=
  C5_always_deregisters 2 [] 1 c5bsys c5psys false (by decide) (by decide)

theorem getBatchItem_updateBatchItemStatus (i j : Nat) (status : ItemStatus)
    (res : Option BatchItemResult) (items : List BatchItem) :
    getBatchItem i (updateBatchItemStatus j status res items)
      = (getBatchItem i items).map
          (fun a => if a.id == j then updateBatchItemRow status res a else a) :=
  find?_key_updateWhere (fun a : BatchItem => a.id) (updateBatchItemRow status res)
    (fun _ => rfl) i j items

theorem getBatch_incrementBatchCompleted (i j : Nat) (failed : Bool) (st : BatchStore) :
    getBatch i (incrementBatchCompleted j failed st)
      = (getBatch i st).map (fun b => if b.id == j then incrementBatchRow failed b else b) :=
  find?_key_updateWhere (fun b : Batch => b.id) (incrementBatchRow failed)
    (fun b => by cases failed <;> rfl) i j st.batches

theorem getPptxSlide_updatePptxSlideStatus (i j : Nat) (status : ItemStatus)
    (res : Option PptxSlideResult) (slides : List PptxSlide) :
    getPptxSlide i (updatePptxSlideStatus j status res slides)
      = (getPptxSlide i slides).map
          (fun a => if a.id == j then updatePptxSlideRow status res a else a) :=
  find?_key_updateWhere (fun a : PptxSlide => a.id) (updatePptxSlideRow status res)
    (fun _ => rfl) i j slides

theorem getPptxJob_incrementPptxCompleted (i j : Nat) (failed : Bool) (st : PptxStore) :
    getPptxJob i (incrementPptxCompleted j failed st)
      = (getPptxJob i st).map (fun b => if b.id == j then incrementPptxRow failed b else b) :=
  find?_key_updateWhere (fun b : PptxJob => b.id) (incrementPptxRow failed)
    (fun b => by cases failed <;> rfl) i j st.jobs

theorem getBatch_set_items (i : Nat) (st : BatchStore) (l : List BatchItem) :
    getBatch i { st with items := l } = getBatch i st := rfl

theorem getPptxJob_set_slides (i : Nat) (st : PptxStore) (l : List PptxSlide) :
    getPptxJob i { st with slides := l } = getPptxJob i st := rfl

theorem runBatchTask_failure (batchId itemId : Nat) (gw : GwOutcome) (elapsed : Nat)
    (st : BatchStore) (it0 : BatchItem) (b0 : Batch)
    (hfail : gwIsBatchFailure gw) (htext : gwFailText gw ≠ "")
    (hit : getBatchItem itemId st.items = some it0) (hitid : it0.id = itemId)
    (hbatch : getBatch batchId st = some b0) (hbid : b0.id = batchId) :
    getBatchItem itemId (runBatchTask batchId itemId gw elapsed st).items
      = some { it0 with
               status := .failed
               generated_image := none
               generated_mime_type := none
               error := some (gwFailText gw)
               processing_time := jsNatOrNull (some elapsed) } ∧
    getBatch batchId (runBatchTask batchId itemId gw elapsed st)
      = some (incrementBatchRow true b0) := by
  cases gw with
  | result r =>
    have hr : batchSuccessCond r = false := hfail
    have hne : jsOrDefault r.error "Unknown error" ≠ "" :=
      jsOrDefault_ne_empty _ _ (by decide)
    constructor
    · simp only [runBatchTask, hr, Bool.false_eq_true, if_false, incrementBatchCompleted]
      rw [getBatchItem_updateBatchItemStatus, getBatchItem_updateBatchItemStatus, hit]
      simp [hitid, updateBatchItemRow, jsStrOrNull, jsNatOrNull, hne, gwFailText]
    · simp only [runBatchTask, hr, Bool.false_eq_true, if_false]
      rw [getBatch_incrementBatchCompleted, getBatch_set_items, getBatch_set_items, hbatch]
      simp [hbid]
  | thrown m =>
    have hm : m ≠ "" := htext
    constructor
    · simp only [runBatchTask, incrementBatchCompleted]
      rw [getBatchItem_updateBatchItemStatus, getBatchItem_updateBatchItemStatus, hit]
      simp [hitid, updateBatchItemRow, jsStrOrNull, jsNatOrNull, hm, gwFailText]
    · simp only [runBatchTask]
      rw [getBatch_incrementBatchCompleted, getBatch_set_items, getBatch_set_items, hbatch]
      simp [hbid]

theorem runPptxTask_failure (jobId slideId : Nat) (gw : GwOutcome) (elapsed : Nat)
    (pt : PptxStore) (sl0 : PptxSlide) (j0 : PptxJob)
    (hfail : gwIsPptxFailure gw) (htext : gwFailText gw ≠ "")
    (hsl : getPptxSlide slideId pt.slides = some sl0) (hslid : sl0.id = slideId)
    (hjob : getPptxJob jobId pt = some j0) (hjid : j0.id = jobId) :
    getPptxSlide slideId (runPptxTask jobId slideId gw elapsed pt).slides
      = some { sl0 with
               status := .failed
               beautified_image := none
               error := some (gwFailText gw)
               processing_time := jsNatOrNull (some elapsed) } ∧
    getPptxJob jobId (runPptxTask jobId slideId gw elapsed pt)
      = some (incrementPptxRow true j0) := by
  cases gw with
  | result r =>
    have hr : pptxSuccessCond r = false := hfail
    have hne : jsOrDefault r.error "Unknown error" ≠ "" :=
      jsOrDefault_ne_empty _ _ (by decide)
    constructor
    · simp only [runPptxTask, hr, Bool.false_eq_true, if_false, incrementPptxCompleted]
      rw [getPptxSlide_updatePptxSlideStatus, getPptxSlide_updatePptxSlideStatus, hsl]
      simp [hslid, updatePptxSlideRow, jsStrOrNull, jsNatOrNull, hne, gwFailText]
    · simp only [runPptxTask, hr, Bool.false_eq_true, if_false]
      rw [getPptxJob_incrementPptxCompleted, getPptxJob_set_slides, getPptxJob_set_slides, hjob]
      simp [hjid]
  | thrown m =>
    have hm : m ≠ "" := htext
    constructor
    · simp only [runPptxTask, incrementPptxCompleted]
      rw [getPptxSlide_updatePptxSlideStatus, getPptxSlide_updatePptxSlideStatus, hsl]
      simp [hslid, updatePptxSlideRow, jsStrOrNull, jsNatOrNull, hm, gwFailText]
    · simp only [runPptxTask]
      rw [getPptxJob_incrementPptxCompleted, getPptxJob_set_slides, getPptxJob_set_slides, hjob]
      simp [hjid]

/-- C6 counterexample: a 0 ms gateway failure (and a 0 ms thrown exception
in the deck runner) is recorded as a failed row with the message and the
failed increment, but its stored duration is NULL — the JS
processingTime-or-null coercion discards a 0 ms measurement — so the task is
not marked with its elapsed duration as the claim states. -/
theorem C6_counterexample :
    (getBatchItem 0 (runBatchTask 1 0 c6gw 0 c6store).items).map (·.status)
      = some ItemStatus.failed ∧
    (getBatchItem 0 (runBatchTask 1 0 c6gw 0 c6store).items).map (·.error)
      = some (some (gwFailText c6gw)) ∧
    (getBatchItem 0 (runBatchTask 1 0 c6gw 0 c6store).items).map (·.processing_time)
      = some none ∧
    ¬ ((getBatchItem 0 (runBatchTask 1 0 c6gw 0 c6store).items).map (·.processing_time)
      = some (some 0)) ∧
    getBatch 1 (runBatchTask 1 0 c6gw 0 c6store) = some (incrementBatchRow true c6batch) ∧
    (getPptxSlide 0 (runPptxTask 2 0 c6gw2 0 c6pt).slides).map (·.processing_time)
      = some none := by
  decide

/-- C6 amended: when the gateway returns a failure result or throws, the
task runner absorbs it (the runner functions are total, nothing escapes):
the task row is marked failed carrying the failure or exception message as
its error text, and the job counters are incremented with failed set, in
both the batch and the deck variant. The recorded duration is the elapsed
time as the code stores it — through the JS processingTime-or-null coercion,
which keeps a nonzero elapsed time and turns a 0 ms measurement into NULL
(the counterexample); the original claim asserted the elapsed duration
unconditionally. -/
theorem C6_runner_failure_recorded
    (batchId itemId jobId slideId : Nat) (gw gw2 : GwOutcome) (elapsed elapsed2 : Nat)
    (st : BatchStore) (pt : PptxStore) (it0 : BatchItem) (b0 : Batch)
    (sl0 : PptxSlide) (j0 : PptxJob)
    (hfail : gwIsBatchFailure gw) (htext : gwFailText gw ≠ "")
    (hit : getBatchItem itemId st.items = some it0) (hitid : it0.id = itemId)
    (hbatch : getBatch batchId st = some b0) (hbid : b0.id = batchId)
    (hfail2 : gwIsPptxFailure gw2) (htext2 : gwFailText gw2 ≠ "")
    (hsl : getPptxSlide slideId pt.slides = some sl0) (hslid : sl0.id = slideId)
    (hjob : getPptxJob jobId pt = some j0) (hjid : j0.id = jobId) :
    (getBatchItem itemId (runBatchTask batchId itemId gw elapsed st).items
      = some { it0 with
               status := .failed
               generated_image := none
               generated_mime_type := none
               error := some (gwFailText gw)
               processing_time := jsNatOrNull (some elapsed) }) ∧
    (getBatch batchId (runBatchTask batchId itemId gw elapsed st)
      = some (incrementBatchRow true b0)) ∧
    (getPptxSlide slideId (runPptxTask jobId slideId gw2 elapsed2 pt).slides
      = some { sl0 with
               status := .failed
               beautified_image := none
               error := some (gwFailText gw2)
               processing_time := jsNatOrNull (some elapsed2) }) ∧
    (getPptxJob jobId (runPptxTask jobId slideId gw2 elapsed2 pt)
      = some (incrementPptxRow true j0)) := by
  obtain ⟨h1, h2⟩ := runBatchTask_failure batchId itemId gw elapsed st it0 b0
    hfail htext hit hitid hbatch hbid
  obtain ⟨h3, h4⟩ := runPptxTask_failure jobId slideId gw2 elapsed2 pt sl0 j0
    hfail2 htext2 hsl hslid hjob hjid
  exact ⟨h1, h2, h3, h4⟩

/-- Witness for C6: a gateway failure result in the batch runner and a
thrown exception in the deck runner, both recorded as failed outcomes. -/
theorem C6_runner_failure_recorded_witness :
    (getBatchItem 0 (runBatchTask 1 0 c6gw 7 c6store).items
      = some { c6item with
               status := .failed
               generated_image := none
               generated_mime_type := none
               error := some (gwFailText c6gw)
               processing_time := some 7 }) ∧
    (getBatch 1 (runBatchTask 1 0 c6gw 7 c6store) = some (incrementBatchRow true c6batch)) ∧
    (getPptxSlide 0 (runPptxTask 2 0 c6gw2 9 c6pt).slides
      = some { c6slide with
               status := .failed
               beautified_image := none
               error := some (gwFailText c6gw2)
               processing_time := some 9 }) ∧
    (getPptxJob 2 (runPptxTask 2 0 c6gw2 9 c6pt) = some (incrementPptxRow true c6job)) :=
  C6_runner_failure_recorded 1 0 2 0 c6gw c6gw2 7 9 c6store c6pt c6item c6batch c6slide c6job
    rfl (by decide) rfl rfl rfl rfl
    trivial (by decide) rfl rfl rfl rfl

/-! ### Claim C10: assembly input after a partial drain -/
theorem countP_add_countP_le_length {α : Type} (p q : α → Bool) (l : List α)
    (h : ∀ a ∈ l, ¬(p a = true ∧ q a = true)) :
    l.countP p + l.countP q ≤ l.length := by
  induction l with
  | nil => simp
  | cons b t ih =>
    have hb := h b (List.mem_cons_self b t)
    have ht := ih (fun a ha => h a (List.mem_cons_of_mem b ha))
    rw [List.countP_cons, List.countP_cons, List.length_cons]
    cases hp : p b <;> cases hq : q b <;> simp [hp, hq] at hb ⊢ <;> omega

/-- C10: the assembled deliverable is built only from terminal slides —
completed ones contribute their beautified payload, failed ones their
original image as fallback — sorted ascending by slide number; pending and
processing slides are omitted entirely, so the deliverable can have fewer
slides than the job. -/
theorem C10_assembly_terminal_only (slides : List PptxSlide) :
    List.Sorted slideLE (assemblySlides slides) ∧
    (assemblySlides slides).length
      = slides.countP (fun sl => sl.status == ItemStatus.completed && optTruthy sl.beautified_image)
        + slides.countP (fun sl => sl.status == ItemStatus.failed) ∧
    (assemblySlides slides).length ≤ slides.length ∧
    ∀ x ∈ assemblySlides slides, ∃ sl ∈ slides, sl.slide_number = x.slideNumber ∧
      ((sl.status = ItemStatus.completed ∧ optTruthy sl.beautified_image = true ∧
        x.imageData = sl.beautified_image.getD "") ∨
       (sl.status = ItemStatus.failed ∧ x.imageData = sl.original_image)) := by
  have hlen : (assemblySlides slides).length
      = slides.countP (fun sl => sl.status == ItemStatus.completed && optTruthy sl.beautified_image)
        + slides.countP (fun sl => sl.status == ItemStatus.failed) := by
    simp only [assemblySlides, List.length_insertionSort, List.length_append,
      List.length_map, List.countP_eq_length_filter]
  refine ⟨List.sorted_insertionSort slideLE _, hlen, ?_, ?_⟩
  · rw [hlen]
    exact countP_add_countP_le_length _ _ _ (fun a _ hpq => by
      obtain ⟨hp, hq⟩ := hpq
      simp only [Bool.and_eq_true, beq_iff_eq] at hp hq
      rw [hp.1] at hq
      cases hq)
  · intro x hx
    have hx2 : x ∈
        ((slides.filter fun sl => sl.status == ItemStatus.completed && optTruthy sl.beautified_image).map
          (fun sl => ({ slideNumber := sl.slide_number, imageData := sl.beautified_image.getD ""
                        mimeType := "image/png" } : SlideImage)))
        ++ ((slides.filter fun sl => sl.status == ItemStatus.failed).map
          (fun sl => ({ slideNumber := sl.slide_number, imageData := sl.original_image
                        mimeType := "image/png" } : SlideImage))) := by
      have hmem := List.mem_insertionSort slideLE (l :=
        ((slides.filter fun sl => sl.status == ItemStatus.completed && optTruthy sl.beautified_image).map
          (fun sl => ({ slideNumber := sl.slide_number, imageData := sl.beautified_image.getD ""
                        mimeType := "image/png" } : SlideImage)))
        ++ ((slides.filter fun sl => sl.status == ItemStatus.failed).map
          (fun sl => ({ slideNumber := sl.slide_number, imageData := sl.original_image
                        mimeType := "image/png" } : SlideImage)))) (x := x)
      exact hmem.mp hx
    rcases List.mem_append.mp hx2 with hxa | hxb
    · obtain ⟨sl, hsl, rfl⟩ := List.mem_map.mp hxa
      obtain ⟨hslm, hcond⟩ := List.mem_filter.mp hsl
      simp only [Bool.and_eq_true, beq_iff_eq] at hcond
      exact ⟨sl, hslm, rfl, Or.inl ⟨hcond.1, hcond.2, rfl⟩⟩
    · obtain ⟨sl, hsl, rfl⟩ := List.mem_map.mp hxb
      obtain ⟨hslm, hcond⟩ := List.mem_filter.mp hsl
      simp only [beq_iff_eq] at hcond
      exact ⟨sl, hslm, rfl, Or.inr ⟨hcond, rfl⟩⟩

/-- Witness for C10: one completed, one failed and one pending slide give a
two-entry sorted deliverable; the fallback entry of slide 2 originates from
its failed source slide. -/
theorem C10_assembly_terminal_only_witness :
    List.Sorted slideLE (assemblySlides c10slides) ∧
    (assemblySlides c10slides).length = 2 ∧
    (∃ sl ∈ c10slides, sl.slide_number = 2 ∧
      ((sl.status = ItemStatus.completed ∧ optTruthy sl.beautified_image = true ∧
        "O2" = sl.beautified_image.getD "") ∨
       (sl.status = ItemStatus.failed ∧ "O2" = sl.original_image))) := by
  have h := C10_assembly_terminal_only c10slides
  refine ⟨h.1, ?_, ?_⟩
  · rw [h.2.1]
    decide
  · have hm := h.2.2.2 { slideNumber := 2, imageData := "O2", mimeType := "image/png" }
      (by decide)
    exact hm

/-- C1: evidence of the divergence. On a 2-task job whose first task
succeeds and whose cancellation is observed at the next loop-boundary check,
the batch processor finalizes the persisted status as completed (not
failed), and the deck processor performs the assembly phase, stores a
one-slide deliverable built from the cancelled drain, and also finalizes as
completed. The conjunct of the claim that does hold is verified too: the
still-pending task 2 / slide 2 remains pending. -/
theorem C1_cancelled_run_finalization :
    ((getBatch 1 (processBatch 3 c1trace 1 c1bsys).1.store).map (·.status)
        = some BatchStatus.completed ∧
      (getBatch 1 (processBatch 3 c1trace 1 c1bsys).1.store).map (·.completed_items)
        = some 1 ∧
      (getBatchItem 2 (processBatch 3 c1trace 1 c1bsys).1.store.items).map (·.status)
        = some ItemStatus.pending ∧
      (processBatch 3 c1trace 1 c1bsys).2 = none) ∧
    ((getPptxJob 1 (processPptxJob 3 c1trace false 1 c1psys).1.store).map (·.status)
        = some PptxJobStatus.completed ∧
      resGet (processPptxJob 3 c1trace false 1 c1psys).1.results 1
        = some [{ slideNumber := 1, imageData := "IMG", mimeType := "image/png" }] ∧
      (getPptxSlide 2 (processPptxJob 3 c1trace false 1 c1psys).1.store.slides).map (·.status)
        = some ItemStatus.pending) := by
  decide

end SlideBeautifier

